import Mathlib

/-!
Verification development for the decentralized-inference-vault backend.

The Python sources are shallowly embedded as Lean definitions:

* `src/ai_compute/src/services/lighthouse_client.py` — `LighthouseClient`
  (URL construction, `decrypt_file`, `validate_file_integrity`);
* `src/ai_compute/src/services/access_validator.py` — `validate_user_access`;
* `src/ai_compute/src/services/inference_engine.py` — `load_model`,
  `_load_model_content`, `_run_backup_inference`, `_extract_text_input`,
  `get_model_info`;
* `src/ai_compute/src/main.py` — the `POST /api/v1/inference` endpoint;
* `src/backend/src/config.py` — the `Settings` defaults.

Bytes are lists of naturals, Python dicts are insertion-ordered association
lists, and calls into external libraries (torch, transformers, web3, httpx,
Fernet) are oracle parameters whose outcomes the theorems quantify over.
Fallible Python code is embedded with `Except`: a `.error` value is a raised
exception, an `.ok` value a normal return.  SHA-256 (used by
`validate_file_integrity`) is implemented concretely below, following
FIPS 180-4, so the integrity checker is executable.
-/

namespace DIV

/-! Section: SHA-256 (FIPS 180-4), over byte lists.

`hashlib.sha256(content).hexdigest()` from `lighthouse_client.py` line 152.
Words are naturals reduced modulo `2 ^ 32`. -/

/-- Reduce to a 32-bit word. -/
def w32 (x : Nat) : Nat := x % 4294967296

/-- Right-rotation of a 32-bit word by `n` bits. -/
def rotr32 (n x : Nat) : Nat := w32 ((x >>> n) ||| (x <<< (32 - n)))

/-- Big sigma-0 of FIPS 180-4. -/
def bsig0 (x : Nat) : Nat := (rotr32 2 x) ^^^ (rotr32 13 x) ^^^ (rotr32 22 x)

/-- Big sigma-1 of FIPS 180-4. -/
def bsig1 (x : Nat) : Nat := (rotr32 6 x) ^^^ (rotr32 11 x) ^^^ (rotr32 25 x)

/-- Small sigma-0 of FIPS 180-4. -/
def ssig0 (x : Nat) : Nat := (rotr32 7 x) ^^^ (rotr32 18 x) ^^^ (x >>> 3)

/-- Small sigma-1 of FIPS 180-4. -/
def ssig1 (x : Nat) : Nat := (rotr32 17 x) ^^^ (rotr32 19 x) ^^^ (x >>> 10)

/-- Choice function: bitwise `(x ∧ y) ⊕ (¬x ∧ z)` on 32-bit words. -/
def chf (x y z : Nat) : Nat := (x &&& y) ^^^ ((x ^^^ 4294967295) &&& z)

/-- Majority function. -/
def majf (x y z : Nat) : Nat := (x &&& y) ^^^ (x &&& z) ^^^ (y &&& z)

/-- The 64 SHA-256 round constants, written in decimal. -/
def K256 : List Nat :=
  [1116352408, 1899447441, 3049323471, 3921009573, 961987163, 1508970993,
   2453635748, 2870763221, 3624381080, 310598401, 607225278, 1426881987,
   1925078388, 2162078206, 2614888103, 3248222580, 3835390401, 4022224774,
   264347078, 604807628, 770255983, 1249150122, 1555081692, 1996064986,
   2554220882, 2821834349, 2952996808, 3210313671, 3336571891, 3584528711,
   113926993, 338241895, 666307205, 773529912, 1294757372, 1396182291,
   1695183700, 1986661051, 2177026350, 2456956037, 2730485921, 2820302411,
   3259730800, 3345764771, 3516065817, 3600352804, 4094571909, 275423344,
   430227734, 506948616, 659060556, 883997877, 958139571, 1322822218,
   1537002063, 1747873779, 1955562222, 2024104815, 2227730452, 2361852424,
   2428436474, 2756734187, 3204031479, 3329325298]

/-- The SHA-256 initial hash value, written in decimal. -/
def H256 : List Nat :=
  [1779033703, 3144134277, 1013904242, 2773480762,
   1359893119, 2600822924, 528734635, 1541459225]

/-- Group a byte list into big-endian 32-bit words. -/
def toWords : List Nat → List Nat
  | b0 :: b1 :: b2 :: b3 :: rest => (((b0 * 256 + b1) * 256 + b2) * 256 + b3) :: toWords rest
  | _ => []

/-- Extend a 16-word message schedule by `n` further words. -/
def extendW (w : List Nat) : Nat → List Nat
  | 0 => w
  | n + 1 =>
    let t := w.length
    let nw := w32 (ssig1 (w.getD (t - 2) 0) + w.getD (t - 7) 0 +
                   ssig0 (w.getD (t - 15) 0) + w.getD (t - 16) 0)
    extendW (w ++ [nw]) n

/-- One round of the SHA-256 compression, on an 8-word working state. -/
def round256 (st : List Nat) (kw : Nat × Nat) : List Nat :=
  match st with
  | [a, b, c, d, e, f, g, h] =>
    let t1 := w32 (h + bsig1 e + chf e f g + kw.1 + kw.2)
    let t2 := w32 (bsig0 a + majf a b c)
    [w32 (t1 + t2), a, b, c, w32 (d + t1), e, f, g]
  | other => other

/-- Compress one 64-byte block into the running hash. -/
def compress256 (hs : List Nat) (block : List Nat) : List Nat :=
  let w := extendW (toWords block) 48
  let fin := (K256.zip w).foldl round256 hs
  (hs.zip fin).map (fun p => w32 (p.1 + p.2))

/-- Split a byte list into 64-byte chunks; structurally recursive on a fuel
argument so that the kernel can evaluate it. -/
def chunks64Fuel : Nat → List Nat → List (List Nat)
  | 0, _ => []
  | _, [] => []
  | fuel + 1, l => l.take 64 :: chunks64Fuel fuel (l.drop 64)

/-- Split a byte list into 64-byte chunks. -/
def chunks64 (l : List Nat) : List (List Nat) := chunks64Fuel l.length l

/-- Big-endian bytes of a 64-bit length field. -/
def lenBytes64 (n : Nat) : List Nat :=
  [n >>> 56 % 256, n >>> 48 % 256, n >>> 40 % 256, n >>> 32 % 256,
   n >>> 24 % 256, n >>> 16 % 256, n >>> 8 % 256, n % 256]

/-- SHA-256 message padding. -/
def pad256 (msg : List Nat) : List Nat :=
  let k := (64 + 56 - ((msg.length + 1) % 64)) % 64
  msg ++ [128] ++ List.replicate k 0 ++ lenBytes64 (8 * msg.length)

/-- Big-endian bytes of one 32-bit word. -/
def wordBytes (w : Nat) : List Nat :=
  [w >>> 24 % 256, w >>> 16 % 256, w >>> 8 % 256, w % 256]

/-- SHA-256 digest (32 bytes) of a byte list. -/
def sha256 (msg : List Nat) : List Nat :=
  ((chunks64 (pad256 msg)).foldl compress256 H256).flatMap wordBytes

/-- Lower-case hexadecimal digit for a value below 16, computed from the
character codes (48 is the code of the zero digit, 87 + 10 that of `a`). -/
def hexDigitChar (n : Nat) : Char :=
  Char.ofNat (if n < 10 then 48 + n else 87 + n)

/-- Lower-case hexadecimal rendering of a byte list. -/
def hexEncode (bs : List Nat) : String :=
  String.mk (bs.flatMap (fun b => [hexDigitChar (b / 16 % 16), hexDigitChar (b % 16)]))

/-- Embedding of `hashlib.sha256(content).hexdigest()`: lower-case hex digest. -/
def sha256hexdigest (msg : List Nat) : String := hexEncode (sha256 msg)

/-! Section: storage-retrieval component (`lighthouse_client.py`).

Byte strings are `List Nat` (each entry one byte).  A value that Python
could pass where bytes are expected but that makes `hashlib` raise (a
non-bytes object) is modelled as the `.error` case of `Except String PyBytes`.
-/

/-- Python `bytes` values. -/
abbrev PyBytes := List Nat

/-- UTF-8 bytes of a string, for `str.encode()`. -/
def strBytes (s : String) : PyBytes := s.toUTF8.toList.map (fun b => b.toNat)

/-- Embedding of Python `str.lower()` (character-wise ASCII lowering). -/
def pyLower (s : String) : String := String.mk (s.data.map Char.toLower)

/-- The characters Python `str.strip()` removes by default: exactly those on
which `str.isspace()` is true, i.e. the code points 9-13, 28-32, 133 (next
line), 160 (no-break space), 5760 (ogham space mark), 8192-8202 (typographic
spaces), 8232 and 8233 (line and paragraph separators), 8239 (narrow
no-break space), 8287 (medium mathematical space) and 12288 (ideographic
space). -/
def isPySpace (c : Char) : Bool :=
  decide ((9 ≤ c.toNat ∧ c.toNat ≤ 13) ∨ (28 ≤ c.toNat ∧ c.toNat ≤ 32) ∨
    c.toNat = 133 ∨ c.toNat = 160 ∨ c.toNat = 5760 ∨
    (8192 ≤ c.toNat ∧ c.toNat ≤ 8202) ∨ c.toNat = 8232 ∨ c.toNat = 8233 ∨
    c.toNat = 8239 ∨ c.toNat = 8287 ∨ c.toNat = 12288)

/-- Embedding of Python `str.strip()`: drop leading and trailing whitespace. -/
def pyStrip (s : String) : String :=
  String.mk (((s.data.dropWhile isPySpace).reverse.dropWhile isPySpace).reverse)

/-- Embedding of `LighthouseClient.validate_file_integrity` (lines 137-156).  The `content`
argument is `.ok bytes` for a proper byte string and `.error e` for a value on
which `hashlib.sha256` raises; the guard `if not expected_checksum` treats both
`None` and the empty string as absent (Python truthiness). -/
def validate_file_integrity (content : Except String PyBytes)
    (expected_checksum : Option String) : Bool :=
  match expected_checksum with
  | none => true
  | some cs =>
    if cs = "" then true
    else
      match content with
      | Except.error _ => false
      | Except.ok bs => pyLower (sha256hexdigest bs) == pyLower cs

/-- Embedding of `LighthouseClient.decrypt_file` (lines 77-108).  `fernetDecrypt key bytes`
is the oracle for `Fernet(key).decrypt(bytes)` (`.error` = the library
raised); `fresh_key` is the unrelated key produced by `Fernet.generate_key()`.
The sub-steps outside the inner `try` (`str.encode`, `hashlib.sha256`,
`Fernet.generate_key`) are total for a string key, so the outer re-raising
handler is unreachable and the embedding always returns `.ok`. -/
def decrypt_file (fernetDecrypt : PyBytes → PyBytes → Except String PyBytes)
    (fresh_key : PyBytes) (encrypted_content : PyBytes) (decryption_key : String) :
    Except String PyBytes :=
  let _key_hash := sha256 (strBytes decryption_key)
  match fernetDecrypt fresh_key encrypted_content with
  | Except.ok decrypted_content => Except.ok decrypted_content
  | Except.error _ => Except.ok encrypted_content

/-- A process environment: variable name to optional value. -/
abbrev Env := String → Option String

/-- Embedding of `Settings.lighthouse_base_url`, `src/backend/src/config.py` line 20:
sourced from `LIGHTHOUSE_BASE_URL` with the documented default. -/
def settings_lighthouse_base_url (env : Env) : String :=
  (env ("LIGHTHOUSE_BASE_URL")).getD ("https://node.lighthouse.storage")

/-- The fields `LighthouseClient.__init__` assigns (lines 20-26). -/
structure LighthouseClient where
  api_key : Option String
  base_url : String
  cache_dir : String
  deriving DecidableEq, Repr

/-- Embedding of `LighthouseClient.__init__` (lines 20-26): the API key and the cache
directory come from the environment, the base URL is the hard-coded literal. -/
def LighthouseClient.init (env : Env) : LighthouseClient :=
  { api_key := env ("LIGHTHOUSE_API_KEY")
    base_url := "https://node.lighthouse.storage"
    cache_dir := (env ("MODEL_CACHE_DIR")).getD ("./cache/models") }

/-- The URL `download_file` requests (line 48): `{base_url}/api/v0/cat/{cid}`. -/
def download_url (c : LighthouseClient) (cid : String) : String :=
  c.base_url ++ "/api/v0/cat/" ++ cid

/-- The URL `get_file_metadata` requests (line 121):
`{base_url}/api/v0/object/stat/{cid}`. -/
def metadata_url (c : LighthouseClient) (cid : String) : String :=
  c.base_url ++ "/api/v0/object/stat/" ++ cid

/-! Section: access-control component (`access_validator.py`).

The outbound blockchain calls are oracles: `is_address` for
`web3.is_address`, and `Except`-valued outcomes for the two contract reads
(`getModelInfo(bytes32)` and `balanceOf(address)`); a `.error` value is the
exception the call raised.  Python dict values are the heterogeneous `PyVal`;
dicts themselves are insertion-ordered association lists. -/

/-- Values stored in the Python dicts this service builds. -/
inductive PyVal where
  | s (v : String)
  | b (v : Bool)
  | n (v : Nat)
  | q (v : Rat)
  deriving DecidableEq, Repr

/-- The tuple `getModelInfo(bytes32)` returns on chain (see the vault ABI,
`access_validator.py` lines 33-48). -/
structure ChainModelInfo where
  cid : String
  token_contract : String
  price_per_inference : Nat
  owner : String
  active : Bool
  total_inferences : Nat
  deriving DecidableEq, Repr

/-- The dict `validate_user_access` returns (lines 61-133). -/
structure AccessResult where
  has_access : Bool
  error : Option String := none
  user_balance : Option Nat := none
  min_balance_required : Option Nat := none
  model_info : Option (List (String × PyVal)) := none
  deriving DecidableEq, Repr

/-- The hard-coded access threshold (line 103): `1 * (10 ** 18)`. -/
def min_balance_required : Nat := 1 * 10 ^ 18

/-- Embedding of `AccessValidator.validate_user_access` (lines 50-133).  `is_address` is
the oracle for `web3.is_address`; `getModelInfo` is the outcome of the vault
contract read for this model id (the keccak-derived key is deterministic in
the id, so the oracle is indexed by nothing further); `balanceOf` is the
outcome of the token-balance read.  A failure of either contract read is
caught by the inner handler (lines 121-126). -/
def validate_user_access (is_address : String → Bool)
    (getModelInfo : Except String ChainModelInfo) (balanceOf : Except String Nat)
    (user_address : String) : AccessResult :=
  if !is_address user_address then
    { has_access := false, error := some ("Invalid user address") }
  else
    match getModelInfo with
    | Except.error e =>
      { has_access := false, error := some ("Model not found or contract error: " ++ e) }
    | Except.ok info =>
      if !info.active then
        { has_access := false
          error := some ("Model is not active")
          model_info := some [("cid", PyVal.s info.cid), ("active", PyVal.b info.active),
                              ("owner", PyVal.s info.owner)] }
      else
        match balanceOf with
        | Except.error e =>
          { has_access := false
            error := some ("Model not found or contract error: " ++ e) }
        | Except.ok user_balance =>
          { has_access := decide (user_balance ≥ min_balance_required)
            user_balance := some user_balance
            min_balance_required := some min_balance_required
            model_info := some [("cid", PyVal.s info.cid),
                                ("token_contract", PyVal.s info.token_contract),
                                ("price_per_inference", PyVal.n info.price_per_inference),
                                ("owner", PyVal.s info.owner),
                                ("active", PyVal.b info.active),
                                ("total_inferences", PyVal.n info.total_inferences)] }

/-! Section: inference-execution component (`inference_engine.py`).

The active-model cache `self.model_cache` is an insertion-ordered association
list from model id to the cached record.  The three format-interpretation
attempts of `_load_model_content` call external libraries
(`torch.load`, `pickle.load`, `transformers.pipeline`), so their outcomes on
the given bytes are oracle parameters. -/

/-- One entry of `self.model_cache`: the record `_load_model_content` builds
(its `model` handle is opaque and not represented; `modelType` is the dict's
`type` field, `loaded_at` the event-loop timestamp). -/
structure CachedModel where
  modelType : String
  loaded_at : Rat
  deriving DecidableEq, Repr

/-- The active-model cache. -/
abbrev ModelCache := List (String × CachedModel)

/-- Embedding of `InferenceEngine._load_model_content` (lines 88-128): try
`torch.load`, then `pickle.load`, then the fixed text-classification hub
pipeline, in strict order; each oracle is the outcome of the corresponding
library call on the supplied bytes.  The result is the winning type tag, or
the `ValueError` message when all three raise. -/
def load_model_content (torchLoad pickleLoad hubPipeline : Except String Unit) :
    Except String String :=
  match torchLoad with
  | Except.ok _ => Except.ok ("pytorch")
  | Except.error _ =>
    match pickleLoad with
    | Except.ok _ => Except.ok ("pickle")
    | Except.error _ =>
      match hubPipeline with
      | Except.ok _ => Except.ok ("huggingface_pipeline")
      | Except.error _ => Except.error ("Unable to load model - unsupported format")

/-- The dict `load_model` returns: `status` and `message` always, `model_type`
and `device` only on a fresh successful load. -/
structure LoadResult where
  status : String
  message : String
  model_type : Option String := none
  device : Option String := none
  deriving DecidableEq, Repr

/-- Embedding of `InferenceEngine.load_model` (lines 46-86).  `fmt1` renders a
number the way Python's `%.1f` format does (a library behaviour, passed as a
parameter); `max_model_size_mb` and `device` are the engine fields; `now` is
`asyncio.get_event_loop().time()`.  The surrounding `try`/`except` turns the
size `ValueError` and the unsupported-format `ValueError` into error dicts,
so the embedding is total; the cache is returned alongside the result dict. -/
def load_model (torchLoad pickleLoad hubPipeline : Except String Unit)
    (fmt1 : Rat → String) (max_model_size_mb : Nat) (device : String) (now : Rat)
    (model_cache : ModelCache) (model_id : String) (model_content : PyBytes) :
    ModelCache × LoadResult :=
  if (model_cache.lookup model_id).isSome then
    (model_cache, { status := "success", message := "Model loaded from cache" })
  else
    let model_size_mb : Rat := (model_content.length : Rat) / (1024 * 1024)
    if model_size_mb > (max_model_size_mb : Rat) then
      (model_cache,
        { status := "error"
          message := "Failed to load model: Model size (" ++ fmt1 model_size_mb ++
            "MB) exceeds maximum allowed size (" ++ toString max_model_size_mb ++ "MB)" })
    else
      match load_model_content torchLoad pickleLoad hubPipeline with
      | Except.ok tag =>
        ((model_id, { modelType := tag, loaded_at := now }) :: model_cache,
          { status := "success"
            message := "Model loaded successfully (" ++ fmt1 model_size_mb ++ "MB)"
            model_type := some tag
            device := some device })
      | Except.error e =>
        (model_cache, { status := "error", message := "Failed to load model: " ++ e })

/-- Embedding of `InferenceEngine.get_model_info` (lines 270-280): the info
dict for a cached id, `None` otherwise. -/
def get_model_info (model_cache : ModelCache) (device : String) (model_id : String) :
    Option (List (String × PyVal)) :=
  match model_cache.lookup model_id with
  | some mi => some [("model_id", PyVal.s model_id), ("type", PyVal.s mi.modelType),
                     ("loaded_at", PyVal.q mi.loaded_at), ("device", PyVal.s device)]
  | none => none

/-- Names bound at module level in `inference_engine.py` (its imports, the
module logger, and the class itself); transcribed from lines 1-19.  A bare
name used inside a method body resolves against this list (then builtins) —
names defined in the class body are not in scope there. -/
def inference_engine_module_globals : List String :=
  ["os", "io", "pickle", "logging", "tempfile", "Dict", "Any", "Optional",
   "torch", "np", "AutoTokenizer", "AutoModelForCausalLM", "AutoConfig",
   "pipeline", "asyncio", "logger", "InferenceEngine"]

/-- The dict `_run_backup_inference` returns on success. -/
structure BackupResult where
  status : String
  model_id : String
  model_type : String
  result : String
  device : String
  fallback : Bool
  default_response : Bool := false
  deriving DecidableEq, Repr

/-- Embedding of `InferenceEngine._run_backup_inference` (lines 428-479).
`backup_ready` says whether `self.backup_model` and `self.backup_tokenizer`
are both set; `backupGenerate` is the outcome of the chat-template /
tokenize / `generate` / decode sequence on the cached backup model (lines
438-454); `downloadTokenizer` and `downloadModel` are the outcomes of the two
`from_pretrained("Qwen/Qwen2.5-0.5B")` calls in the handler (lines 467-468);
`defaultGenerate` is what the minimal non-sampling generation would produce
were it reachable.  The handler then calls the bare name `run_inference`
(line 469), which resolves in the module globals and builtins only: the name
is bound solely as a class attribute (lines 130 and 412) and in the separate
module `test.py`, so the call raises `NameError` before the default response
can be built. -/
def run_backup_inference (backup_ready : Bool) (backupGenerate : Except String String)
    (downloadTokenizer downloadModel : Except String Unit)
    (defaultGenerate : Except String String) (device : String) :
    Except String BackupResult :=
  let primary : Except String String :=
    if !backup_ready then Except.error ("Backup model not available") else backupGenerate
  match primary with
  | Except.ok response =>
    Except.ok { status := "success", model_id := "backup_cache_model"
                model_type := "backup_huggingface", result := pyStrip response
                device := device, fallback := true }
  | Except.error _ =>
    match downloadTokenizer with
    | Except.error e => Except.error e
    | Except.ok _ =>
      match downloadModel with
      | Except.error e => Except.error e
      | Except.ok _ =>
        if inference_engine_module_globals.contains ("run_inference") then
          match defaultGenerate with
          | Except.error e => Except.error e
          | Except.ok resp =>
            Except.ok { status := "success", model_id := "default_fallback"
                        model_type := "default", result := resp, device := device
                        fallback := true, default_response := true }
        else Except.error ("NameError: name run_inference is not defined")

/-- Python `str()` on a `PyVal`. -/
def pyStr : PyVal → String
  | PyVal.s v => v
  | PyVal.b true => "True"
  | PyVal.b false => "False"
  | PyVal.n v => toString v
  | PyVal.q v => toString v

/-- First value in the dict that is a string with non-empty strip — the
fallback scan of `_extract_text_input` (lines 494-497). -/
def firstNonemptyStr : List (String × PyVal) → Option String
  | [] => none
  | (_, PyVal.s v) :: rest =>
    if pyStrip v ≠ "" then some (pyStrip v) else firstNonemptyStr rest
  | _ :: rest => firstNonemptyStr rest

/-- Embedding of `InferenceEngine._extract_text_input` (lines 481-499). -/
def extract_text_input (input_data : List (String × PyVal)) : String :=
  match input_data.lookup ("text") with
  | some v => pyStr v
  | none =>
    match input_data.lookup ("prompt") with
    | some v => pyStr v
    | none =>
      match input_data.lookup ("query") with
      | some v => pyStr v
      | none =>
        match input_data.lookup ("input") with
        | some v => pyStr v
        | none =>
          match input_data.lookup ("message") with
          | some v => pyStr v
          | none =>
            match firstNonemptyStr input_data with
            | some s => s
            | none => "Hello, how can you help me?"

/-- First value in the dict that is a string, regardless of content — the
reading of level six of claim C8's precedence list (`first string-valued
field`), used to compare the claim against the code. -/
def firstStrField : List (String × PyVal) → Option String
  | [] => none
  | (_, PyVal.s v) :: _ => some v
  | _ :: rest => firstStrField rest

/-- Modelled from the claim wording (not the code): prompt extraction with
the precedence `text > prompt > query > input > message > first string-valued
field > hard-coded default`, each level taken verbatim. -/
def extract_text_input_claimed (input_data : List (String × PyVal)) : String :=
  match input_data.lookup ("text") with
  | some v => pyStr v
  | none =>
    match input_data.lookup ("prompt") with
    | some v => pyStr v
    | none =>
      match input_data.lookup ("query") with
      | some v => pyStr v
      | none =>
        match input_data.lookup ("input") with
        | some v => pyStr v
        | none =>
          match input_data.lookup ("message") with
          | some v => pyStr v
          | none =>
            match firstStrField input_data with
            | some s => s
            | none => "Hello, how can you help me?"

/-! Section: HTTP API component (`main.py`), the `POST /api/v1/inference`
endpoint (`run_inference`, lines 174-234). -/

/-- The `InferenceResponse` pydantic model (`main.py` lines 58-63). -/
structure InferenceResponse where
  status : String
  model_id : String
  result : Option PyVal := none
  message : Option String := none
  error : Option String := none
  deriving DecidableEq, Repr

/-- Embedding of the `POST /api/v1/inference` handler (`main.py` lines
174-234).  It computes the access check (through the embedded
`validate_user_access`, with the blockchain oracles passed through) and the
loaded-model check (through the embedded `get_model_info`), but both `if`
bodies are `pass` (lines 189-205), so neither value influences what follows.
`inferenceCall` is the outcome of
`await inference_engine.run_inference(model_id, input_data)`: `.error` when
that call raises (its message then reaches the caller through the endpoint's
`except` handler), `.ok d` when it returns the dict `d`.  Accessing a missing
`status` or `result` key raises `KeyError`, which the same handler turns into
an error response whose text is Python's rendering of the `KeyError`. -/
def run_inference_endpoint (is_address : String → Bool)
    (getModelInfo : Except String ChainModelInfo) (balanceOf : Except String Nat)
    (model_cache : ModelCache) (device : String)
    (inferenceCall : Except String (List (String × PyVal)))
    (model_id user_address : String) : InferenceResponse :=
  let _access_result := validate_user_access is_address getModelInfo balanceOf user_address
  let _model_info := get_model_info model_cache device model_id
  match inferenceCall with
  | Except.error e =>
    { status := "error", model_id := model_id
      error := some ("Internal server error: " ++ e) }
  | Except.ok inference_result =>
    match inference_result.lookup ("status") with
    | none =>
      { status := "error", model_id := model_id
        error := some ("Internal server error: 'status'") }
    | some _ =>
      match inference_result.lookup ("result") with
      | none =>
        { status := "error", model_id := model_id
          error := some ("Internal server error: 'result'") }
      | some r =>
        { status := "success", model_id := model_id, result := some r
          message := some ("Inference completed successfully") }

/-! Section: theorems.  First two sanity checks of the SHA-256
implementation against published test vectors, then the claims. -/

/-- Sanity check of the SHA-256 implementation against the published digest of
the empty message. -/
theorem sha256_empty_vector :
    sha256hexdigest [] =
      "e3b0c44298fc1c149afbf4c8996fb92427ae41e4649b934ca495991b7852b855" := by decide

/-- Sanity check of the SHA-256 implementation against the published digest of
the three-byte message `abc`. -/
theorem sha256_abc_vector :
    sha256hexdigest [97, 98, 99] =
      "ba7816bf8f01cfea414140de5dae2223b00361a396177a9cb410ff61f20015ad" := by decide

/-- Claim C1: the `POST /api/v1/inference` handler returns the same response
whatever the computed access-check outcome (any address validity, contract
outcome or balance) and whatever the loaded-model check reports (any engine
cache), because the negative outcomes of both checks only hit `pass`; and
whenever the downstream inference call returns a dict with `status` and
`result` keys, the endpoint answers with a success response carrying that
result. -/
theorem inference_endpoint_ignores_access_and_load_checks
    (ia1 ia2 : String → Bool) (gm1 gm2 : Except String ChainModelInfo)
    (bo1 bo2 : Except String Nat) (mc1 mc2 : ModelCache) (dev1 dev2 : String)
    (call : Except String (List (String × PyVal))) (model_id user_address : String) :
    run_inference_endpoint ia1 gm1 bo1 mc1 dev1 call model_id user_address =
      run_inference_endpoint ia2 gm2 bo2 mc2 dev2 call model_id user_address ∧
    (∀ d r, call = Except.ok d → (d.lookup ("status")).isSome = true →
      d.lookup ("result") = some r →
      run_inference_endpoint ia1 gm1 bo1 mc1 dev1 call model_id user_address =
        { status := "success", model_id := model_id, result := some r
          message := some ("Inference completed successfully") }) := by
  constructor
  · rfl
  · intro d r hc hs hr
    subst hc
    cases hst : d.lookup ("status") with
    | none => rw [hst] at hs; cases hs
    | some v => simp [run_inference_endpoint, hst, hr]

/-- Claim C1, witness: a concrete instantiation in which the two access
oracles disagree (access granted versus denied) and only one cache holds the
model, yet the responses coincide and are the success response. -/
theorem inference_endpoint_ignores_access_and_load_checks_witness :
    run_inference_endpoint (fun _ => true)
        (Except.ok { cid := "c", token_contract := "t", price_per_inference := 1,
                     owner := "o", active := true, total_inferences := 0 })
        (Except.ok (10 ^ 18)) [("m", { modelType := "pytorch", loaded_at := 0 })] "cpu"
        (Except.ok [("status", PyVal.s ("success")), ("result", PyVal.s ("out"))]) "m" "0xgood" =
      run_inference_endpoint (fun _ => false) (Except.error ("rpc down"))
        (Except.error ("rpc down")) [] "cpu"
        (Except.ok [("status", PyVal.s ("success")), ("result", PyVal.s ("out"))]) "m" "0xgood" ∧
    run_inference_endpoint (fun _ => true)
        (Except.ok { cid := "c", token_contract := "t", price_per_inference := 1,
                     owner := "o", active := true, total_inferences := 0 })
        (Except.ok (10 ^ 18)) [("m", { modelType := "pytorch", loaded_at := 0 })] "cpu"
        (Except.ok [("status", PyVal.s ("success")), ("result", PyVal.s ("out"))]) "m" "0xgood" =
      { status := "success", model_id := "m", result := some (PyVal.s ("out"))
        message := some ("Inference completed successfully") } := by
  refine ⟨(inference_endpoint_ignores_access_and_load_checks _ _ _ _ _ _ _ _ _ _ _ _ _).1,
    (inference_endpoint_ignores_access_and_load_checks (fun _ => true) (fun _ => false)
        (Except.ok { cid := "c", token_contract := "t", price_per_inference := 1,
                     owner := "o", active := true, total_inferences := 0 })
        (Except.error ("rpc down"))
        (Except.ok (10 ^ 18)) (Except.error ("rpc down"))
        [("m", { modelType := "pytorch", loaded_at := 0 })] []
        "cpu" "cpu"
        (Except.ok [("status", PyVal.s ("success")), ("result", PyVal.s ("out"))])
        "m" "0xgood").2
      [("status", PyVal.s ("success")), ("result", PyVal.s ("out"))]
      (PyVal.s ("out")) rfl (by decide) (by decide)⟩

/-- Claim C2: the claim says the final recovery of `_run_backup_inference`
re-downloads the backup model and returns a `default_fallback` success.  In
the code that branch calls the bare name `run_inference`, which is not bound
in the module's global scope (it exists only as a class attribute and in the
separate module `test.py`), so once the backup path has raised and the two
downloads have succeeded, the branch raises `NameError` instead of returning
the tagged success — the code contradicts the claim (and its own comment,
`Return a default response as absolute fallback`). -/
theorem backup_default_fallback_path_raises_name_error :
    run_backup_inference false (Except.error ("Backup model not available"))
        (Except.ok ()) (Except.ok ()) (Except.ok ("I am a language model.")) "cpu" =
      Except.error ("NameError: name run_inference is not defined") ∧
    inference_engine_module_globals.contains ("run_inference") = false :=
  ⟨rfl, by decide⟩

/-- Claim C3: with a valid address and successful contract reads, a balance of
exactly `10 ^ 18` grants access and `10 ^ 18 - 1` denies it; an inactive
model denies access with error `Model is not active` regardless of the
balance oracle, and the returned info dict holds exactly the keys `cid`,
`active` and `owner`. -/
theorem validate_user_access_threshold_and_inactive
    (is_address : String → Bool) (user_address : String)
    (info : ChainModelInfo) (bal : Nat) (haddr : is_address user_address = true) :
    (info.active = true → bal = 10 ^ 18 →
      (validate_user_access is_address (Except.ok info) (Except.ok bal)
        user_address).has_access = true) ∧
    (info.active = true → bal = 10 ^ 18 - 1 →
      (validate_user_access is_address (Except.ok info) (Except.ok bal)
        user_address).has_access = false) ∧
    (info.active = false → ∀ balanceOf : Except String Nat,
      validate_user_access is_address (Except.ok info) balanceOf user_address =
        { has_access := false, error := some ("Model is not active")
          model_info := some [("cid", PyVal.s info.cid), ("active", PyVal.b false),
                              ("owner", PyVal.s info.owner)] }) := by
  refine ⟨?_, ?_, ?_⟩
  · intro hact hbal
    subst hbal
    simp [validate_user_access, haddr, hact, min_balance_required]
  · intro hact hbal
    subst hbal
    simp [validate_user_access, haddr, hact, min_balance_required]
  · intro hact balanceOf
    simp [validate_user_access, haddr, hact]

/-- Claim C3, witness: concrete oracles at the threshold boundary and a
concrete inactive model. -/
theorem validate_user_access_threshold_and_inactive_witness :
    (validate_user_access (fun _ => true)
        (Except.ok { cid := "c", token_contract := "t", price_per_inference := 2,
                     owner := "o", active := true, total_inferences := 5 })
        (Except.ok (10 ^ 18)) "0xuser").has_access = true ∧
    (validate_user_access (fun _ => true)
        (Except.ok { cid := "c", token_contract := "t", price_per_inference := 2,
                     owner := "o", active := true, total_inferences := 5 })
        (Except.ok (10 ^ 18 - 1)) "0xuser").has_access = false ∧
    validate_user_access (fun _ => true)
        (Except.ok { cid := "c", token_contract := "t", price_per_inference := 2,
                     owner := "o", active := false, total_inferences := 5 })
        (Except.ok 0) "0xuser" =
      { has_access := false, error := some ("Model is not active")
        model_info := some [("cid", PyVal.s ("c")), ("active", PyVal.b false),
                            ("owner", PyVal.s ("o"))] } := by
  refine ⟨?_, ?_, ?_⟩
  · exact (validate_user_access_threshold_and_inactive (fun _ => true) "0xuser"
      { cid := "c", token_contract := "t", price_per_inference := 2,
        owner := "o", active := true, total_inferences := 5 } (10 ^ 18) rfl).1 rfl rfl
  · exact (validate_user_access_threshold_and_inactive (fun _ => true) "0xuser"
      { cid := "c", token_contract := "t", price_per_inference := 2,
        owner := "o", active := true, total_inferences := 5 } (10 ^ 18 - 1) rfl).2.1 rfl rfl
  · exact (validate_user_access_threshold_and_inactive (fun _ => true) "0xuser"
      { cid := "c", token_contract := "t", price_per_inference := 2,
        owner := "o", active := false, total_inferences := 5 } 0 rfl).2.2 rfl (Except.ok 0)

/-- Claim C4: when the identifier is already in the active-model cache,
`load_model` returns the cached-success result with message
`Model loaded from cache`, leaves the cache unchanged, and its outcome is the
same for every byte string and every format-interpretation outcome (so
neither the size check nor the format chain is applied to the bytes). -/
theorem load_model_cache_idempotent
    (o1 o2 o3 p1 p2 p3 : Except String Unit) (fmt fmt2 : Rat → String)
    (maxMB maxMB2 : Nat) (dev dev2 : String) (now now2 : Rat) (mc : ModelCache)
    (model_id : String) (content content2 : PyBytes)
    (h : (mc.lookup model_id).isSome = true) :
    load_model o1 o2 o3 fmt maxMB dev now mc model_id content =
      (mc, { status := "success", message := "Model loaded from cache" }) ∧
    load_model o1 o2 o3 fmt maxMB dev now mc model_id content =
      load_model p1 p2 p3 fmt2 maxMB2 dev2 now2 mc model_id content2 := by
  constructor <;> simp [load_model, h]

/-- Claim C4, witness: a cached identifier, two different byte strings and two
disagreeing sets of loader outcomes give the same cached-success result. -/
theorem load_model_cache_idempotent_witness :
    load_model (Except.ok ()) (Except.ok ()) (Except.ok ()) (fun _ => "f") 0 "cpu" 0
        [("m", { modelType := "pytorch", loaded_at := 0 })] "m" [1, 2, 3] =
      ([("m", { modelType := "pytorch", loaded_at := 0 })],
        { status := "success", message := "Model loaded from cache" }) ∧
    load_model (Except.ok ()) (Except.ok ()) (Except.ok ()) (fun _ => "f") 0 "cpu" 0
        [("m", { modelType := "pytorch", loaded_at := 0 })] "m" [1, 2, 3] =
      load_model (Except.error ("no")) (Except.error ("no")) (Except.error ("no"))
        (fun _ => "g") 1000 "cuda" 7
        [("m", { modelType := "pytorch", loaded_at := 0 })] "m" [] :=
  load_model_cache_idempotent (Except.ok ()) (Except.ok ()) (Except.ok ())
    (Except.error ("no")) (Except.error ("no")) (Except.error ("no"))
    (fun _ => "f") (fun _ => "g") 0 1000 "cpu" "cuda" 0 7
    [("m", { modelType := "pytorch", loaded_at := 0 })] "m" [1, 2, 3] [] (by decide)

/-- Helper: the only error `_load_model_content` can raise is the
unsupported-format `ValueError`. -/
theorem load_model_content_error (o1 o2 o3 : Except String Unit) (e : String)
    (h : load_model_content o1 o2 o3 = Except.error e) :
    e = "Unable to load model - unsupported format" := by
  cases o1 <;> cases o2 <;> cases o3 <;> simp_all [load_model_content]

/-- Claim C5: for an uncached identifier, byte strings longer than
`max_model_size_mb` megabytes are rejected with the size-exceeded error
whatever the format-interpretation outcomes (the cache is unchanged), while a
byte string of exactly `max_model_size_mb * 1MB` passes the size check and
the load proceeds to the format-interpretation chain. -/
theorem load_model_size_limit
    (o1 o2 o3 : Except String Unit) (fmt : Rat → String) (maxMB : Nat)
    (dev : String) (now : Rat) (mc : ModelCache) (model_id : String)
    (content : PyBytes) (hnc : mc.lookup model_id = none) :
    (content.length > maxMB * 1048576 →
      load_model o1 o2 o3 fmt maxMB dev now mc model_id content =
        (mc, { status := "error"
               message := "Failed to load model: Model size (" ++
                 fmt ((content.length : Rat) / (1024 * 1024)) ++
                 "MB) exceeds maximum allowed size (" ++ toString maxMB ++ "MB)" })) ∧
    (content.length = maxMB * 1048576 →
      (∃ tag, load_model_content o1 o2 o3 = Except.ok tag ∧
        load_model o1 o2 o3 fmt maxMB dev now mc model_id content =
          ((model_id, { modelType := tag, loaded_at := now }) :: mc,
            { status := "success"
              message := "Model loaded successfully (" ++
                fmt ((content.length : Rat) / (1024 * 1024)) ++ "MB)"
              model_type := some tag, device := some dev })) ∨
      (load_model_content o1 o2 o3 =
          Except.error ("Unable to load model - unsupported format") ∧
        load_model o1 o2 o3 fmt maxMB dev now mc model_id content =
          (mc, { status := "error"
                 message := "Failed to load model: Unable to load model - unsupported format" }))) := by
  constructor
  · intro h
    have hgt : (maxMB : Rat) < (content.length : Rat) / (1024 * 1024) := by
      rw [lt_div_iff₀ (by norm_num : (0 : Rat) < 1024 * 1024)]
      have h2 : ((maxMB * 1048576 : Nat) : Rat) < (content.length : Rat) := by
        exact_mod_cast h
      push_cast at h2
      linarith
    simp [load_model, hnc, gt_iff_lt, hgt]
  · intro h
    have hle : ¬ ((maxMB : Rat) < (content.length : Rat) / (1024 * 1024)) := by
      rw [lt_div_iff₀ (by norm_num : (0 : Rat) < 1024 * 1024)]
      have h2 : ((content.length : Nat) : Rat) = ((maxMB * 1048576 : Nat) : Rat) := by
        exact_mod_cast congrArg (Nat.cast : Nat → Rat) h
      push_cast at h2
      rw [h2]
      norm_num
    cases hlc : load_model_content o1 o2 o3 with
    | ok tag =>
      exact Or.inl ⟨tag, rfl, by simp [load_model, hnc, gt_iff_lt, hle, hlc]⟩
    | error e =>
      have he := load_model_content_error o1 o2 o3 e hlc
      subst he
      exact Or.inr ⟨rfl, by simp [load_model, hnc, gt_iff_lt, hle, hlc]⟩

/-- Claim C5, witness: with `max_model_size_mb = 0`, a one-byte model is
rejected with the size error for arbitrary loader outcomes, and a zero-byte
model (exactly at the limit) proceeds to the format chain. -/
theorem load_model_size_limit_witness :
    load_model (Except.ok ()) (Except.ok ()) (Except.ok ()) (fun _ => "") 0 "cpu" 0
        [] "m" [42] =
      ([], { status := "error"
             message := "Failed to load model: Model size (MB) exceeds maximum allowed size (0MB)" }) ∧
    ((∃ tag, load_model_content (Except.ok ()) (Except.ok ()) (Except.ok ()) =
        Except.ok tag ∧
      load_model (Except.ok ()) (Except.ok ()) (Except.ok ()) (fun _ => "") 0 "cpu" 0
          [] "m" [] =
        (("m", { modelType := tag, loaded_at := 0 }) :: [],
          { status := "success", message := "Model loaded successfully (MB)"
            model_type := some tag, device := some "cpu" })) ∨
    (load_model_content (Except.ok ()) (Except.ok ()) (Except.ok ()) =
        Except.error ("Unable to load model - unsupported format") ∧
      load_model (Except.ok ()) (Except.ok ()) (Except.ok ()) (fun _ => "") 0 "cpu" 0
          [] "m" [] =
        ([], { status := "error"
               message := "Failed to load model: Unable to load model - unsupported format" }))) := by
  constructor
  · exact (load_model_size_limit (Except.ok ()) (Except.ok ()) (Except.ok ())
      (fun _ => "") 0 "cpu" 0 [] "m" [42] rfl).1 (by decide)
  · exact (load_model_size_limit (Except.ok ()) (Except.ok ()) (Except.ok ())
      (fun _ => "") 0 "cpu" 0 [] "m" [] rfl).2 (by decide)
/-- Claim C6: `decrypt_file` never raises â for every byte string and every
string key it returns normally; and whenever the symmetric-decryption attempt
fails it returns the input bytes unchanged. -/
theorem decrypt_file_never_raises
    (fernetDecrypt : PyBytes → PyBytes → Except String PyBytes)
    (fresh_key encrypted_content : PyBytes) (decryption_key : String) :
    (∃ b, decrypt_file fernetDecrypt fresh_key encrypted_content decryption_key =
      Except.ok b) ∧
    (∀ e, fernetDecrypt fresh_key encrypted_content = Except.error e →
      decrypt_file fernetDecrypt fresh_key encrypted_content decryption_key =
        Except.ok encrypted_content) := by
  cases hf : fernetDecrypt fresh_key encrypted_content with
  | ok d =>
    exact ⟨⟨d, by simp [decrypt_file, hf]⟩, by intro e he; cases he⟩
  | error e =>
    exact ⟨⟨encrypted_content, by simp [decrypt_file, hf]⟩,
      by intro e2 _; simp [decrypt_file, hf]⟩

/-- Claim C6, witness: with a decryption oracle that always raises (the
placeholder key generation makes this the realistic case), the original
bytes come back unchanged. -/
theorem decrypt_file_never_raises_witness :
    decrypt_file (fun _ _ => Except.error ("InvalidToken")) [9] [1, 2, 3] "key" =
      Except.ok [1, 2, 3] :=
  (decrypt_file_never_raises (fun _ _ => Except.error ("InvalidToken")) [9] [1, 2, 3]
    "key").2 ("InvalidToken") rfl

/-- Claim C7, counterexample: the claim says a supplied checksum yields true
exactly when it matches the digest, false in every other case; but supplying
the empty string (which matches no SHA-256 digest) yields true, because
`if not expected_checksum` treats the empty string like an absent one. -/
theorem validate_file_integrity_empty_checksum_counterexample :
    validate_file_integrity (Except.ok []) (some ("")) = true ∧
    ¬ (pyLower ("") = pyLower (sha256hexdigest [])) := by
  exact ⟨rfl, by decide⟩

/-- Claim C7, amended: validate-file-integrity returns true when no checksum
is supplied or when the supplied checksum is the empty string; for a
non-empty checksum it returns true exactly when the checksum matches the
lower-case SHA-256 hex digest case-insensitively, and false otherwise,
including when hashing the content raises internally. -/
theorem validate_file_integrity_amended
    (content : Except String PyBytes) (bs : PyBytes) (cs emsg : String)
    (hcs : cs ≠ "") :
    validate_file_integrity content none = true ∧
    validate_file_integrity content (some ("")) = true ∧
    (validate_file_integrity (Except.ok bs) (some cs) = true ↔
      pyLower (sha256hexdigest bs) = pyLower cs) ∧
    validate_file_integrity (Except.error emsg) (some cs) = false := by
  refine ⟨rfl, rfl, ?_, ?_⟩
  · simp [validate_file_integrity, hcs]
  · simp [validate_file_integrity, hcs]

/-- Claim C7 (amended), witness: concrete checks on the bytes `abc`,
including a case-insensitive match against the upper-cased digest. -/
theorem validate_file_integrity_amended_witness :
    validate_file_integrity (Except.ok [97, 98, 99]) none = true ∧
    validate_file_integrity (Except.ok [97, 98, 99]) (some ("")) = true ∧
    (validate_file_integrity (Except.ok [97, 98, 99])
        (some ("BA7816BF8F01CFEA414140DE5DAE2223B00361A396177A9CB410FF61F20015AD")) =
          true ↔
      pyLower (sha256hexdigest [97, 98, 99]) =
        pyLower ("BA7816BF8F01CFEA414140DE5DAE2223B00361A396177A9CB410FF61F20015AD")) ∧
    validate_file_integrity (Except.error ("not bytes"))
        (some ("BA7816BF8F01CFEA414140DE5DAE2223B00361A396177A9CB410FF61F20015AD")) =
          false :=
  validate_file_integrity_amended (Except.ok [97, 98, 99]) [97, 98, 99]
    ("BA7816BF8F01CFEA414140DE5DAE2223B00361A396177A9CB410FF61F20015AD")
    ("not bytes") (by decide)

/-- Claim C8, counterexample: the claim's precedence list ends with `first
string-valued field`, but the code only accepts a string field whose value is
non-empty after stripping: on a mapping whose sole field is an empty string
the code falls through to the hard-coded default greeting, while the claimed
precedence selects the empty string. -/
theorem extract_text_input_empty_string_counterexample :
    extract_text_input [("a", PyVal.s (""))] = "Hello, how can you help me?" ∧
    extract_text_input_claimed [("a", PyVal.s (""))] = "" ∧
    ¬ (extract_text_input [("a", PyVal.s (""))] =
      extract_text_input_claimed [("a", PyVal.s (""))]) := by
  refine ⟨rfl, rfl, by decide⟩

/-- Claim C8, amended: the backup path's prompt extraction follows the
precedence `text > prompt > query > input > message > first string-valued
field that is non-empty after stripping (returned stripped) > hard-coded
default greeting`; in particular, with both `prompt` and `query` present and
no `text`, the `prompt` value is chosen. -/
theorem extract_text_input_precedence_amended (d : List (String × PyVal)) :
    (∀ v, d.lookup ("text") = some v → extract_text_input d = pyStr v) ∧
    (d.lookup ("text") = none → ∀ v, d.lookup ("prompt") = some v →
      extract_text_input d = pyStr v) ∧
    (d.lookup ("text") = none → d.lookup ("prompt") = none →
      ∀ v, d.lookup ("query") = some v → extract_text_input d = pyStr v) ∧
    (d.lookup ("text") = none → d.lookup ("prompt") = none →
      d.lookup ("query") = none → ∀ v, d.lookup ("input") = some v →
      extract_text_input d = pyStr v) ∧
    (d.lookup ("text") = none → d.lookup ("prompt") = none →
      d.lookup ("query") = none → d.lookup ("input") = none →
      ∀ v, d.lookup ("message") = some v → extract_text_input d = pyStr v) ∧
    (d.lookup ("text") = none → d.lookup ("prompt") = none →
      d.lookup ("query") = none → d.lookup ("input") = none →
      d.lookup ("message") = none → ∀ s, firstNonemptyStr d = some s →
      extract_text_input d = s) ∧
    (d.lookup ("text") = none → d.lookup ("prompt") = none →
      d.lookup ("query") = none → d.lookup ("input") = none →
      d.lookup ("message") = none → firstNonemptyStr d = none →
      extract_text_input d = "Hello, how can you help me?") := by
  refine ⟨?_, ?_, ?_, ?_, ?_, ?_, ?_⟩ <;>
    (intros; simp [extract_text_input, *])

/-- Claim C8 (amended), witness: a mapping with both `prompt` and `query`
keys and no `text` key selects the `prompt` value. -/
theorem extract_text_input_precedence_amended_witness :
    extract_text_input [("prompt", PyVal.s ("p")), ("query", PyVal.s ("q"))] = "p" :=
  (extract_text_input_precedence_amended
    [("prompt", PyVal.s ("p")), ("query", PyVal.s ("q"))]).2.1 (by decide)
    (PyVal.s ("p")) (by decide)

/-- Claim C9, counterexample: the claim says the storage-retrieval component's
requests follow the `LIGHTHOUSE_BASE_URL` environment variable; but with that
variable set to another URL, `download_file` and `get_file_metadata` still
target the hard-coded `https://node.lighthouse.storage` (only the backend
`Settings` object reads the variable). -/
theorem lighthouse_base_url_env_ignored_counterexample :
    download_url
        (LighthouseClient.init
          (fun k => if k = "LIGHTHOUSE_BASE_URL" then some ("http://example.com") else none))
        "abc" = "https://node.lighthouse.storage/api/v0/cat/abc" ∧
    metadata_url
        (LighthouseClient.init
          (fun k => if k = "LIGHTHOUSE_BASE_URL" then some ("http://example.com") else none))
        "abc" = "https://node.lighthouse.storage/api/v0/object/stat/abc" ∧
    settings_lighthouse_base_url
        (fun k => if k = "LIGHTHOUSE_BASE_URL" then some ("http://example.com") else none) =
      "http://example.com" ∧
    ¬ (download_url
        (LighthouseClient.init
          (fun k => if k = "LIGHTHOUSE_BASE_URL" then some ("http://example.com") else none))
        "abc" =
      settings_lighthouse_base_url
        (fun k => if k = "LIGHTHOUSE_BASE_URL" then some ("http://example.com") else none) ++
        "/api/v0/cat/abc") := by
  refine ⟨rfl, rfl, rfl, by decide⟩

/-- Claim C9, amended: the backend `Settings` object sources its
`lighthouse_base_url` from `LIGHTHOUSE_BASE_URL` with default
`https://node.lighthouse.storage`, but the storage-retrieval component
hard-codes that default as its base URL, so `download_file` and
`get_file_metadata` issue their requests against the fixed URL for every
environment. -/
theorem lighthouse_base_url_amended (env : Env) (cid v : String) :
    download_url (LighthouseClient.init env) cid =
      "https://node.lighthouse.storage/api/v0/cat/" ++ cid ∧
    metadata_url (LighthouseClient.init env) cid =
      "https://node.lighthouse.storage/api/v0/object/stat/" ++ cid ∧
    (env ("LIGHTHOUSE_BASE_URL") = some v → settings_lighthouse_base_url env = v) ∧
    (env ("LIGHTHOUSE_BASE_URL") = none →
      settings_lighthouse_base_url env = "https://node.lighthouse.storage") := by
  refine ⟨rfl, rfl, ?_, ?_⟩
  · intro hv; simp [settings_lighthouse_base_url, hv]
  · intro hv; simp [settings_lighthouse_base_url, hv]

/-- Claim C9 (amended), witness: a concrete environment that sets the
variable; the settings read it, the client URLs do not. -/
theorem lighthouse_base_url_amended_witness :
    download_url
        (LighthouseClient.init
          (fun k => if k = "LIGHTHOUSE_BASE_URL" then some ("http://other.host") else none))
        "Qm1" = "https://node.lighthouse.storage/api/v0/cat/Qm1" ∧
    metadata_url
        (LighthouseClient.init
          (fun k => if k = "LIGHTHOUSE_BASE_URL" then some ("http://other.host") else none))
        "Qm1" = "https://node.lighthouse.storage/api/v0/object/stat/Qm1" ∧
    settings_lighthouse_base_url
        (fun k => if k = "LIGHTHOUSE_BASE_URL" then some ("http://other.host") else none) =
      "http://other.host" := by
  have h := lighthouse_base_url_amended
    (fun k => if k = "LIGHTHOUSE_BASE_URL" then some ("http://other.host") else none)
    "Qm1" "http://other.host"
  exact ⟨h.1, h.2.1, h.2.2.1 (by decide)⟩

/-- Claim C10: `load_model` is total and atomic on error â it always returns
a result whose status is `success` or `error` (the handler converts every
raise into an error dict), and whenever the status is `error` the
active-model cache is unchanged. -/
theorem load_model_total_and_atomic
    (o1 o2 o3 : Except String Unit) (fmt : Rat → String) (maxMB : Nat)
    (dev : String) (now : Rat) (mc : ModelCache) (model_id : String)
    (content : PyBytes) :
    ((load_model o1 o2 o3 fmt maxMB dev now mc model_id content).2.status = "success" ∨
      (load_model o1 o2 o3 fmt maxMB dev now mc model_id content).2.status = "error") ∧
    ((load_model o1 o2 o3 fmt maxMB dev now mc model_id content).2.status = "error" →
      (load_model o1 o2 o3 fmt maxMB dev now mc model_id content).1 = mc) := by
  by_cases h : (mc.lookup model_id).isSome = true
  · exact ⟨Or.inl (by simp [load_model, h]), fun _ => by simp [load_model, h]⟩
  · have h2 : (mc.lookup model_id).isSome = false := by
      cases hv : (mc.lookup model_id).isSome
      · rfl
      · exact absurd hv h
    by_cases hsz : ((maxMB : Rat) < (content.length : Rat) / (1024 * 1024))
    · exact ⟨Or.inr (by simp [load_model, h2, gt_iff_lt, hsz]),
        fun _ => by simp [load_model, h2, gt_iff_lt, hsz]⟩
    · cases hlc : load_model_content o1 o2 o3 with
      | ok tag =>
        refine ⟨Or.inl (by simp [load_model, h2, gt_iff_lt, hsz, hlc]), fun hs => ?_⟩
        simp [load_model, h2, gt_iff_lt, hsz, hlc] at hs
      | error e =>
        exact ⟨Or.inr (by simp [load_model, h2, gt_iff_lt, hsz, hlc]),
          fun _ => by simp [load_model, h2, gt_iff_lt, hsz, hlc]⟩

/-- Claim C10, witness: with loader outcomes that all raise, a load returns
an error status and leaves the (empty) cache unchanged. -/
theorem load_model_total_and_atomic_witness :
    (load_model (Except.error ("a")) (Except.error ("b")) (Except.error ("c"))
      (fun _ => "") 0 "cpu" 0 [] "m" []).1 = ([] : ModelCache) :=
  (load_model_total_and_atomic (Except.error ("a")) (Except.error ("b"))
    (Except.error ("c")) (fun _ => "") 0 "cpu" 0 [] "m" []).2
    (by simp [load_model, load_model_content])

end DIV
